import Mathlib

/-!
Verification of the ephemeris and animation-loop core of the
celestial-observatory repository (two cosmetic variants of one page:
a full-screen "floating panel" variant and a "dashboard card" variant).

The source is TypeScript; its numeric code is embedded here over the real
numbers.  JavaScript operators that differ from the mathematical ones are
modelled explicitly: the binary `%` on numbers is the remainder whose sign
follows the dividend (`jsMod`), and the integer remainder produced by
`Math.floor(x) % n` is `jsRemInt`.  The calendar arithmetic of `Date` is the
proleptic Gregorian calendar mandated by ECMAScript, embedded as integer day
counts (`daysFromCivil` / `civilFromDays`).
-/

namespace CelestialObservatory

open Real

noncomputable section

/-- JavaScript truncation toward zero of a real number (the quotient used by
the `%` operator on numbers). -/
def jsTrunc (x : ℝ) : ℤ := if 0 ≤ x then ⌊x⌋ else ⌈x⌉

/-- The JavaScript `%` operator on numbers: `x - y * trunc (x / y)`.
The sign of the result follows the dividend. -/
def jsMod (x y : ℝ) : ℝ := x - y * (jsTrunc (x / y) : ℝ)

/-- The JavaScript `%` operator restricted to integer-valued operands
(as produced by `Math.floor(x) % n`): truncated remainder, whose sign
follows the dividend. -/
def jsRemInt (a b : ℤ) : ℤ := if 0 ≤ a then Int.emod a b else -(Int.emod (-a) b)

/-- `THREE.MathUtils.degToRad`: degrees to radians, `d * (π / 180)`. -/
def degToRad (d : ℝ) : ℝ := d * (π / 180)

/-- `THREE.MathUtils.radToDeg`: radians to degrees, `r * (180 / π)`. -/
def radToDeg (r : ℝ) : ℝ := r * (180 / π)

/-- `const OBLIQUITY = THREE.MathUtils.degToRad(23.44)` (both variants). -/
def OBLIQUITY : ℝ := degToRad 23.44

/-- `subsolarLatitude` of the floating-panel variant:
`radToDeg(OBLIQUITY * Math.sin(phase * 2 * Math.PI))`. -/
def subsolarLatitude (phase : ℝ) : ℝ :=
  radToDeg (OBLIQUITY * Real.sin (phase * 2 * π))

/-- `subsolarLatitude` of the dashboard-card variant (textually the same
formula as in the floating-panel variant). -/
def subsolarLatitudeCard (phase : ℝ) : ℝ :=
  radToDeg (OBLIQUITY * Real.sin (phase * 2 * π))

/-- One entry of the `SEASON_DATA` table of the floating-panel variant. -/
structure SeasonInfo where
  name : String
  icon : String
  north : String
  south : String
deriving DecidableEq, Inhabited

/-- `const SEASON_DATA = [...]` (floating-panel variant). -/
def SEASON_DATA : List SeasonInfo :=
  [⟨"Vernal Equinox", "🌱", "Spring", "Autumn"⟩,
   ⟨"Summer Solstice", "☀️", "Summer", "Winter"⟩,
   ⟨"Autumnal Equinox", "🍂", "Autumn", "Spring"⟩,
   ⟨"Winter Solstice", "❄️", "Winter", "Summer"⟩]

/-- `getSeasonIndex` (floating-panel variant):
`Math.floor((phase % 1) * 4) % 4`. -/
def getSeasonIndex (phase : ℝ) : ℤ := jsRemInt ⌊jsMod phase 1 * 4⌋ 4

/-- `seasonLabel` (dashboard-card variant): classifies
`angle = (phase % 1) * 2 * Math.PI` into four quadrant labels
(the local `angle` is written out in each branch condition). -/
def seasonLabel (phase : ℝ) : String :=
  if 0 ≤ jsMod phase 1 * 2 * π ∧ jsMod phase 1 * 2 * π < π / 2 then
    "Northern Spring / Southern Autumn"
  else if π / 2 ≤ jsMod phase 1 * 2 * π ∧ jsMod phase 1 * 2 * π < π then
    "Northern Summer / Southern Winter"
  else if π ≤ jsMod phase 1 * 2 * π ∧ jsMod phase 1 * 2 * π < 3 * π / 2 then
    "Northern Autumn / Southern Spring"
  else "Northern Winter / Southern Summer"

/-- The hemisphere pairing displayed for one `SEASON_DATA` entry, in the
format used by the dashboard-card labels. -/
def pairingLabel (s : SeasonInfo) : String :=
  "Northern " ++ s.north ++ " / Southern " ++ s.south

/-- The hemisphere pairing of the i-th quadrant of `SEASON_DATA`. -/
def quadrantPairing (i : ℕ) : String := pairingLabel (SEASON_DATA.getD i default)

/-- Milliseconds per day, as used by the ECMAScript `Date` model. -/
def msPerDay : ℤ := 86400000

/-- `const YEAR_MS = 1000 * 60 * 60 * 24 * 365` (both variants). -/
def YEAR_MS : ℤ := 1000 * 60 * 60 * 24 * 365

/-- A proleptic Gregorian calendar date. -/
structure CivilDate where
  year : ℤ
  month : ℤ
  day : ℤ
deriving DecidableEq

/-- Day count since 1970-01-01 of a proleptic Gregorian date
(`month` is 1-based); the day arithmetic behind `Date.UTC`. -/
def daysFromCivil (y m d : ℤ) : ℤ :=
  let y2 := if m ≤ 2 then y - 1 else y
  let m2 := if m ≤ 2 then m + 9 else m - 3
  let era := Int.fdiv y2 400
  let yoe := y2 - era * 400
  let doy := Int.fdiv (153 * m2 + 2) 5 + d - 1
  let doe := yoe * 365 + Int.fdiv yoe 4 - Int.fdiv yoe 100 + doy
  era * 146097 + doe - 719468

/-- Inverse of `daysFromCivil`: the proleptic Gregorian date of a day count;
the day arithmetic behind the `Date` accessors. -/
def civilFromDays (z : ℤ) : CivilDate :=
  let z2 := z + 719468
  let era := Int.fdiv z2 146097
  let doe := z2 - era * 146097
  let yoe := Int.fdiv (doe - Int.fdiv doe 1460 + Int.fdiv doe 36524 - Int.fdiv doe 146096) 365
  let y := yoe + era * 400
  let doy := doe - (365 * yoe + Int.fdiv yoe 4 - Int.fdiv yoe 100)
  let mp := Int.fdiv (5 * doy + 2) 153
  let d := doy - Int.fdiv (153 * mp + 2) 5 + 1
  let m := if mp < 10 then mp + 3 else mp - 9
  ⟨if m ≤ 2 then y + 1 else y, m, d⟩

/-- `const START_EPOCH = Date.UTC(2025, 2, 20)` (both variants); the JS month
index 2 is March, and `Date.UTC` returns milliseconds since the epoch. -/
def START_EPOCH : ℤ := daysFromCivil 2025 (2 + 1) 20 * msPerDay

/-- Ambient JavaScript environment state read by the `Date` display methods:
the local timezone offset in minutes (`getTimezoneOffset`) and, to stand for
the rest of the ambient state, the current wall-clock time. -/
structure JsEnv where
  tzOffsetMin : ℤ
  now : ℤ

/-- The month/day numbers behind every formatted field of `dateLabel`
(`toLocaleDateString` with fields month/day, and `getDate`). -/
structure DateParts where
  month : ℤ
  day : ℤ
deriving DecidableEq

/-- `dateLabel` (both variants compute the same underlying month and day):
`ms = START_EPOCH + phase * YEAR_MS`, clipped to integer milliseconds by the
`Date` constructor, then rendered through the locale methods, which use the
LOCAL time of the environment: `t_local = ms - tzOffsetMin * 60000`. -/
def dateLabel (env : JsEnv) (phase : ℝ) : DateParts :=
  let ms := jsTrunc ((START_EPOCH : ℝ) + phase * (YEAR_MS : ℝ))
  let tLocal := ms - env.tzOffsetMin * 60000
  let dayNumber := Int.fdiv tLocal msPerDay
  let c := civilFromDays dayNumber
  ⟨c.month, c.day⟩

/-- A call of `subsolarLatitude` from environment `env`: the function body
reads no ambient state, so the environment is unused. -/
def subsolarLatitudeCall (_env : JsEnv) (p : ℝ) : ℝ := subsolarLatitude p

/-- A call of `getSeasonIndex` from environment `env`: the function body
reads no ambient state, so the environment is unused. -/
def getSeasonIndexCall (_env : JsEnv) (p : ℝ) : ℤ := getSeasonIndex p

/-- A `THREE.Vector3`. -/
structure Vec3 where
  x : ℝ
  y : ℝ
  z : ℝ

/-- `Vector3.subVectors(a, b)`. -/
def Vec3.sub (a b : Vec3) : Vec3 := ⟨a.x - b.x, a.y - b.y, a.z - b.z⟩

/-- `Vector3.add`; also the composition of translation-only group transforms
when computing world positions. -/
def Vec3.add (a b : Vec3) : Vec3 := ⟨a.x + b.x, a.y + b.y, a.z + b.z⟩

/-- `Vector3.multiplyScalar(c)`. -/
def Vec3.scale (c : Vec3) (v : ℝ) : Vec3 := ⟨v * c.x, v * c.y, v * c.z⟩

/-- `Vector3.length()`. -/
def Vec3.length (v : Vec3) : ℝ := Real.sqrt (v.x * v.x + v.y * v.y + v.z * v.z)

/-- `Vector3.normalize()`: three.js divides by `this.length() || 1`, so a zero
vector is left unchanged. -/
def Vec3.normalize (v : Vec3) : Vec3 :=
  v.scale (1 / (if v.length = 0 then 1 else v.length))

/-- The view-control snapshot `controlsRef.current` (identical fields in both
variants). -/
structure Controls where
  heatVisible : Bool
  heatOpacity : ℝ
  showClouds : Bool
  showOrbit : Bool
  spinRate : ℝ
  isPlaying : Bool

/-- The mutable state touched by one animation frame: the orbital phase ref,
the throttled UI copy of the phase, the UI-sync accumulator, the control
snapshot, and the scene-graph/shader values the tick writes. -/
structure SceneState where
  orbitPhase : ℝ
  uiPhase : ℝ
  uiSync : ℝ
  ctrl : Controls
  sunDirection : Vec3
  heatEnabledU : ℝ
  heatOpacityU : ℝ
  rotY : ℝ
  cloudsRotY : ℝ
  cloudsVisible : Bool
  orbitLineVisible : Bool

/-- The constants in which the two variants differ inside the mounted scene
and its `animate` callback, including the x translation of the `system`
group that contains the sun, the orbit and the earth group. -/
structure VariantParams where
  rate : ℝ
  orbitRadius : ℝ
  syncInterval : ℝ
  spinFactor : ℝ
  cloudFactor : ℝ
  systemOffsetX : ℝ

/-- Floating-panel variant: `delta * 0.022`, `orbitRadius = 14`,
UI sync threshold `0.06`, spin factors `1.2` and `0.9`; the `system` group
is left at the origin. -/
def observatoryParams : VariantParams := ⟨0.022, 14, 0.06, 1.2, 0.9, 0⟩

/-- Dashboard-card variant: `delta * 0.025`, `orbitRadius = 16`,
UI sync threshold `0.08`, spin factors `1.5` and `1.1`, and
`system.position.x = -3.5` (the scene is nudged left for the UI). -/
def cardParams : VariantParams := ⟨0.025, 16, 0.08, 1.5, 1.1, -3.5⟩

/-- `sun.position.set(0, 0, 0)`: the LOCAL position of the sun inside the
`system` group, which is exactly the value `animate` reads as
`sun.position`.  It coincides with the sun world position only when the
group sits at the origin (the floating-panel variant). -/
def sunPosition : Vec3 := ⟨0, 0, 0⟩

/-- `updateOrbitPosition`: `angle = phase * Math.PI * 2` and position
`(sin(angle) * R, 0, -cos(angle) * R)` — the earth group position local to
the `system` group. -/
def orbitPosition (phase R : ℝ) : Vec3 :=
  ⟨Real.sin (phase * π * 2) * R, 0, (-Real.cos (phase * π * 2)) * R⟩

/-- The translation of the `system` group (`system.position.x` is set in the
dashboard-card variant only; y and z stay 0). -/
def systemOffsetVec (P : VariantParams) : Vec3 := ⟨P.systemOffsetX, 0, 0⟩

/-- `earth.getWorldPosition(...)`: the `system` group translation composed
with the earth group orbit position (the `earthTilt` group and the earth
mesh sit at the local origin, and rotations do not move it). -/
def earthWorldPosition (P : VariantParams) (phase : ℝ) : Vec3 :=
  Vec3.add (systemOffsetVec P) (orbitPosition phase P.orbitRadius)

/-- The sun WORLD position: the `system` translation applied to the sun
local origin. -/
def sunWorldPosition (P : VariantParams) : Vec3 := systemOffsetVec P

/-- The true planet-to-sun direction in world coordinates, read off the
scene graph: from the earth world position toward the sun world position,
unit-normalized. -/
def planetToSunWorldDir (P : VariantParams) (phase : ℝ) : Vec3 :=
  (Vec3.sub (sunWorldPosition P) (earthWorldPosition P phase)).normalize

/-- One invocation of the `animate` callback with elapsed delta `delta`:
advances the phase when playing (wrapping with the JavaScript `%`),
applies visibility toggles, throttles the UI phase sync, moves the planet,
spins it, recomputes the sun direction and writes the shader uniforms.
The sun-direction line mirrors the code exactly:
`subVectors(sun.position, earthPositionWorld).normalize()` subtracts the
earth WORLD position from the LOCAL `sun.position`.
Pure rendering calls (`controls.update`, `renderer.render`), the starfield
drift and the camera lerp have no observable state relevant here. -/
def animateTick (P : VariantParams) (s : SceneState) (delta : ℝ) : SceneState :=
  let phase1 := if s.ctrl.isPlaying then jsMod (s.orbitPhase + delta * P.rate) 1
                else s.orbitPhase
  let sync1 := s.uiSync + delta
  let uiPhase1 := if sync1 > P.syncInterval then phase1 else s.uiPhase
  let uiSync1 : ℝ := if sync1 > P.syncInterval then 0 else sync1
  let earthPos := earthWorldPosition P phase1
  let sunDir := (Vec3.sub sunPosition earthPos).normalize
  { s with
    orbitPhase := phase1
    orbitLineVisible := s.ctrl.showOrbit
    uiPhase := uiPhase1
    uiSync := uiSync1
    rotY := s.rotY + delta * P.spinFactor * s.ctrl.spinRate
    cloudsRotY := s.cloudsRotY + delta * P.cloudFactor * s.ctrl.spinRate
    cloudsVisible := s.ctrl.showClouds
    sunDirection := sunDir
    heatEnabledU := if s.ctrl.heatVisible then 1 else 0
    heatOpacityU := s.ctrl.heatOpacity }

/-- The time-slider `onChange` handler, `setPhase(v); setIsPlaying(false)`,
together with the two effects that propagate the React state into the
refs (`controlsRef.current.isPlaying = isPlaying` and
`orbitPhaseRef.current = phase`). -/
def sliderDrag (v : ℝ) (s : SceneState) : SceneState :=
  { s with uiPhase := v, orbitPhase := v,
           ctrl := { s.ctrl with isPlaying := false } }

/-- A season-marker button of the floating-panel variant:
`setPhase(i * 0.25); setIsPlaying(false)`, plus the propagating effects. -/
def seasonShortcut (i : Fin 4) (s : SceneState) : SceneState :=
  { s with uiPhase := ((i : ℕ) : ℝ) * 0.25, orbitPhase := ((i : ℕ) : ℝ) * 0.25,
           ctrl := { s.ctrl with isPlaying := false } }

/-- The "March Equinox" button of the dashboard-card variant: its `onClick`
is only `setPhase(0)` — it does not touch `isPlaying`. -/
def marchEquinoxClick (s : SceneState) : SceneState :=
  { s with uiPhase := 0, orbitPhase := 0 }

/-- The mount-time state of either variant: phase starts at `0.18`, autoplay
on, heat overlay on at opacity `0.85`, clouds and orbit path shown, spin rate
1, `sunDirection` uniform initialised to `(1, 0, 0)`. -/
def initialState : SceneState where
  orbitPhase := 0.18
  uiPhase := 0.18
  uiSync := 0
  ctrl := ⟨true, 0.85, true, true, 1, true⟩
  sunDirection := ⟨1, 0, 0⟩
  heatEnabledU := 1
  heatOpacityU := 0.85
  rotY := 0
  cloudsRotY := 0
  cloudsVisible := true
  orbitLineVisible := true

/-- The n-th position of the time slider (`min=0 max=1 step=0.001`): the
values a scrub can deliver to `setPhase` are `n * 0.001` for `n ≤ 1000`. -/
def sliderValue (n : ℕ) : ℝ := (n : ℝ) * 0.001

/-- Modelled from the words of the spec for comparison with the code: the
unit direction FROM the sun TO the planet. -/
def specSunToPlanetDir (p R : ℝ) : Vec3 :=
  (Vec3.sub (orbitPosition p R) sunPosition).normalize

end

/-! ### Helper lemmas -/

/-- Closed form shared by several proofs: the source formula collapses to
`23.44 * sin (2π·phase)`. -/
lemma subsolarLatitude_eq (p : ℝ) :
    subsolarLatitude p = 23.44 * Real.sin (2 * π * p) := by
  unfold subsolarLatitude radToDeg OBLIQUITY degToRad
  have hπ : (π : ℝ) ≠ 0 := Real.pi_ne_zero
  have harg : p * 2 * π = 2 * π * p := by ring
  rw [harg]
  field_simp
  ring

lemma jsTrunc_intCast (n : ℤ) : jsTrunc (n : ℝ) = n := by
  unfold jsTrunc
  by_cases h : (0 : ℝ) ≤ (n : ℝ)
  · rw [if_pos h, Int.floor_intCast]
  · rw [if_neg h, Int.ceil_intCast]

/-- For the divisor 1, the JavaScript remainder subtracts an integer. -/
lemma jsMod_one (x : ℝ) : jsMod x 1 = x - (jsTrunc x : ℝ) := by
  unfold jsMod
  rw [div_one]
  ring

/-- On `[0,1)` the JavaScript remainder by 1 is the identity. -/
lemma jsMod_one_of_mem (x : ℝ) (h0 : 0 ≤ x) (h1 : x < 1) : jsMod x 1 = x := by
  rw [jsMod_one]
  unfold jsTrunc
  rw [if_pos h0, Int.floor_eq_zero_iff.mpr ⟨h0, h1⟩]
  simp

/-- For a nonnegative argument the JavaScript remainder by 1 is `Int.fract`. -/
lemma jsMod_one_nonneg (x : ℝ) (h0 : 0 ≤ x) : jsMod x 1 = Int.fract x := by
  rw [jsMod_one]
  unfold jsTrunc
  rw [if_pos h0]
  rfl

/-- On `[0,1)` the season index is the floor of `phase * 4`. -/
lemma getSeasonIndex_eq_floor (p : ℝ) (h0 : 0 ≤ p) (h1 : p < 1) :
    getSeasonIndex p = ⌊p * 4⌋ := by
  unfold getSeasonIndex
  rw [jsMod_one_of_mem p h0 h1]
  have hnn : 0 ≤ ⌊p * 4⌋ := Int.floor_nonneg.mpr (by positivity)
  have hlt : ⌊p * 4⌋ < 4 := Int.floor_lt.mpr (by push_cast; linarith)
  unfold jsRemInt
  rw [if_pos hnn]
  exact Int.emod_eq_of_lt hnn hlt

/-- For every nonnegative phase the season index lands in `[0, 4)`. -/
lemma getSeasonIndex_bounds (p : ℝ) (h0 : 0 ≤ p) :
    0 ≤ getSeasonIndex p ∧ getSeasonIndex p < 4 := by
  unfold getSeasonIndex
  rw [jsMod_one_nonneg p h0]
  have hf0 : (0 : ℝ) ≤ Int.fract p := Int.fract_nonneg p
  have hf1 : Int.fract p < 1 := Int.fract_lt_one p
  have hnn : 0 ≤ ⌊Int.fract p * 4⌋ := Int.floor_nonneg.mpr (by positivity)
  have hlt : ⌊Int.fract p * 4⌋ < 4 := Int.floor_lt.mpr (by push_cast; linarith)
  unfold jsRemInt
  rw [if_pos hnn]
  rw [show Int.emod ⌊Int.fract p * 4⌋ 4 = ⌊Int.fract p * 4⌋ from
    Int.emod_eq_of_lt hnn hlt]
  exact ⟨hnn, hlt⟩

/-- Quadrant membership determines the season index. -/
lemma getSeasonIndex_quadrant (p : ℝ) (i : ℕ) (hi : i < 4)
    (hlo : (i : ℝ) * 0.25 ≤ p) (hhi : p < ((i : ℝ) + 1) * 0.25) :
    getSeasonIndex p = i := by
  have h025 : (0.25 : ℝ) = 1 / 4 := by norm_num
  rw [h025] at hlo hhi
  have hi3 : (i : ℝ) ≤ 3 := by exact_mod_cast Nat.le_of_lt_succ hi
  have h0 : 0 ≤ p := le_trans (by positivity) hlo
  have h1 : p < 1 := by nlinarith
  rw [getSeasonIndex_eq_floor p h0 h1]
  have : ⌊p * 4⌋ = (i : ℤ) := by
    apply Int.floor_eq_iff.mpr
    constructor
    · push_cast
      linarith
    · push_cast
      linarith
  exact this

/-- The season index is monotone along `[0,1)`. -/
lemma getSeasonIndex_mono (p q : ℝ) (h0 : 0 ≤ p) (hpq : p ≤ q) (hq : q < 1) :
    getSeasonIndex p ≤ getSeasonIndex q := by
  rw [getSeasonIndex_eq_floor p h0 (lt_of_le_of_lt hpq hq),
      getSeasonIndex_eq_floor q (le_trans h0 hpq) hq]
  exact Int.floor_mono (by linarith)

/-! ### Claim theorems -/

/-- C1: for every phase, `subsolarLatitude(phase)` equals
`23.44 × sin(2π·phase)`; phase 0 and 0.5 give 0, phase 0.25 gives +23.44,
and phase 0.75 gives −23.44. -/
theorem subsolarLatitude_formula_and_extremes :
    (∀ p : ℝ, subsolarLatitude p = 23.44 * Real.sin (2 * π * p))
    ∧ subsolarLatitude 0 = 0
    ∧ subsolarLatitude 0.5 = 0
    ∧ subsolarLatitude 0.25 = 23.44
    ∧ subsolarLatitude 0.75 = -23.44 := by
  refine ⟨subsolarLatitude_eq, ?_, ?_, ?_, ?_⟩
  · rw [subsolarLatitude_eq]
    simp
  · rw [subsolarLatitude_eq]
    have h : 2 * π * (0.5 : ℝ) = π := by
      rw [show (0.5 : ℝ) = 1 / 2 by norm_num]
      ring
    rw [h, Real.sin_pi, mul_zero]
  · rw [subsolarLatitude_eq]
    have h : 2 * π * (0.25 : ℝ) = π / 2 := by
      rw [show (0.25 : ℝ) = 1 / 4 by norm_num]
      ring
    rw [h, Real.sin_pi_div_two, mul_one]
  · rw [subsolarLatitude_eq]
    have h : 2 * π * (0.75 : ℝ) = π + π / 2 := by
      rw [show (0.75 : ℝ) = 3 / 4 by norm_num]
      ring
    rw [h]
    rw [Real.sin_add, Real.sin_pi, Real.cos_pi, Real.sin_pi_div_two]
    ring

/-- C6: half-year antisymmetry of the subsolar latitude, with the wrap
performed by the JavaScript `%` operator. -/
theorem subsolarLatitude_antisymmetric (p : ℝ) :
    subsolarLatitude p = -subsolarLatitude (jsMod (p + 0.5) 1) := by
  rw [subsolarLatitude_eq, subsolarLatitude_eq, jsMod_one]
  set n : ℤ := jsTrunc (p + 0.5) with hn
  have harg : 2 * π * (p + 0.5 - (n : ℝ)) = 2 * π * p + π - (n : ℤ) * (2 * π) := by
    rw [show (0.5 : ℝ) = 1 / 2 by norm_num]
    ring
  rw [harg]
  have hper : Real.sin (2 * π * p + π - (n : ℤ) * (2 * π)) = Real.sin (2 * π * p + π) :=
    Real.sin_periodic.sub_int_mul_eq n
  rw [hper, Real.sin_add, Real.sin_pi, Real.cos_pi]
  ring

/-- C3: `getSeasonIndex` partitions `[0,1)` into four equal quadrants: it is
constant with value `i` on the i-th quadrant, non-decreasing on `[0,1)`,
takes only the values `{0,1,2,3}` there, maps each breakpoint `i × 0.25` to
the quadrant it starts (floor semantics), and the quadrants are mapped in
order to the four named seasons of `SEASON_DATA`. -/
theorem seasonIndex_step_function :
    (∀ (p : ℝ) (i : ℕ), i < 4 → (i : ℝ) * 0.25 ≤ p → p < ((i : ℝ) + 1) * 0.25 →
        getSeasonIndex p = i)
    ∧ (∀ p q : ℝ, 0 ≤ p → p ≤ q → q < 1 → getSeasonIndex p ≤ getSeasonIndex q)
    ∧ (∀ p : ℝ, 0 ≤ p → p < 1 → 0 ≤ getSeasonIndex p ∧ getSeasonIndex p < 4)
    ∧ (∀ i : ℕ, i < 4 → getSeasonIndex ((i : ℝ) * 0.25) = i)
    ∧ SEASON_DATA.map SeasonInfo.name =
        ["Vernal Equinox", "Summer Solstice", "Autumnal Equinox", "Winter Solstice"] := by
  refine ⟨getSeasonIndex_quadrant, getSeasonIndex_mono,
    fun p h0 _ => getSeasonIndex_bounds p h0, fun i hi => ?_, rfl⟩
  have h : (0 : ℝ) < 0.25 := by norm_num
  exact getSeasonIndex_quadrant _ i hi (le_refl _) (by nlinarith)

/-- Witness for C3 at concrete inputs in each quadrant facet. -/
theorem seasonIndex_step_function_witness :
    getSeasonIndex 0.1 = (0 : ℕ)
    ∧ getSeasonIndex 0.3 ≤ getSeasonIndex 0.6
    ∧ (0 ≤ getSeasonIndex 0.9 ∧ getSeasonIndex 0.9 < 4)
    ∧ getSeasonIndex (((2 : ℕ) : ℝ) * 0.25) = (2 : ℕ) :=
  ⟨seasonIndex_step_function.1 0.1 0 (by norm_num) (by norm_num) (by norm_num),
   seasonIndex_step_function.2.1 0.3 0.6 (by norm_num) (by norm_num) (by norm_num),
   seasonIndex_step_function.2.2.1 0.9 (by norm_num) (by norm_num),
   seasonIndex_step_function.2.2.2.1 2 (by norm_num)⟩

/-- C10: for every nonnegative phase (in particular the value 1.0 the slider
can store) the season index is in `{0,1,2,3}`, so the `SEASON_DATA[seasonIdx]`
lookup in the derived stats is in bounds. -/
theorem getSeasonIndex_lookup_safe (p : ℝ) (h : 0 ≤ p) :
    0 ≤ getSeasonIndex p ∧ (getSeasonIndex p).toNat < SEASON_DATA.length := by
  obtain ⟨h1, h2⟩ := getSeasonIndex_bounds p h
  refine ⟨h1, ?_⟩
  have hlen : SEASON_DATA.length = 4 := rfl
  rw [hlen]
  omega

/-- Witness for C10 at the slider maximum `phase = 1`. -/
theorem getSeasonIndex_lookup_safe_witness :
    (0 : ℝ) ≤ 1
    ∧ (0 ≤ getSeasonIndex 1 ∧ (getSeasonIndex 1).toNat < SEASON_DATA.length) :=
  ⟨by norm_num, getSeasonIndex_lookup_safe 1 (by norm_num)⟩

/-- C9: the two variants have identical ephemeris math: the two
`subsolarLatitude` definitions agree everywhere, and on `[0,1)` the
floating-panel season classification `getSeasonIndex` returns `i` exactly
when the dashboard-card `seasonLabel` returns the hemisphere pairing of the
i-th `SEASON_DATA` quadrant. -/
theorem variants_ephemeris_agree (p : ℝ) (h0 : 0 ≤ p) (h1 : p < 1) :
    (∀ q : ℝ, subsolarLatitude q = subsolarLatitudeCard q)
    ∧ ∀ i : ℕ, i < 4 →
        (getSeasonIndex p = i ↔ seasonLabel p = quadrantPairing i) := by
  refine ⟨fun _ => rfl, ?_⟩
  have hπ := Real.pi_pos
  have hmod := jsMod_one_of_mem p h0 h1
  have hfl := getSeasonIndex_eq_floor p h0 h1
  unfold seasonLabel
  rw [hmod]
  rcases lt_or_le p (1 / 4) with hq | hq0
  · have hgs : getSeasonIndex p = (0 : ℤ) := by
      rw [hfl]
      apply Int.floor_eq_iff.mpr
      refine ⟨by push_cast; linarith, by push_cast; linarith⟩
    rw [if_pos ⟨by positivity, by nlinarith⟩]
    intro i hi
    rw [hgs]
    interval_cases i <;> decide
  · rcases lt_or_le p (1 / 2) with hq | hq1
    · have hgs : getSeasonIndex p = (1 : ℤ) := by
        rw [hfl]
        apply Int.floor_eq_iff.mpr
        refine ⟨by push_cast; linarith, by push_cast; linarith⟩
      rw [if_neg (by rintro ⟨-, hlt⟩; nlinarith), if_pos ⟨by nlinarith, by nlinarith⟩]
      intro i hi
      rw [hgs]
      interval_cases i <;> decide
    · rcases lt_or_le p (3 / 4) with hq | hq2
      · have hgs : getSeasonIndex p = (2 : ℤ) := by
          rw [hfl]
          apply Int.floor_eq_iff.mpr
          refine ⟨by push_cast; linarith, by push_cast; linarith⟩
        rw [if_neg (by rintro ⟨-, hlt⟩; nlinarith),
            if_neg (by rintro ⟨-, hlt⟩; nlinarith),
            if_pos ⟨by nlinarith, by nlinarith⟩]
        intro i hi
        rw [hgs]
        interval_cases i <;> decide
      · have hgs : getSeasonIndex p = (3 : ℤ) := by
          rw [hfl]
          apply Int.floor_eq_iff.mpr
          refine ⟨by push_cast; linarith, by push_cast; linarith⟩
        rw [if_neg (by rintro ⟨-, hlt⟩; nlinarith),
            if_neg (by rintro ⟨-, hlt⟩; nlinarith),
            if_neg (by rintro ⟨-, hlt⟩; nlinarith)]
        intro i hi
        rw [hgs]
        interval_cases i <;> decide

/-- Witness for C9 at phase 0, quadrant 0. -/
theorem variants_ephemeris_agree_witness :
    (∀ q : ℝ, subsolarLatitude q = subsolarLatitudeCard q)
    ∧ (getSeasonIndex 0 = (0 : ℕ) ↔ seasonLabel 0 = quadrantPairing 0) :=
  ⟨(variants_ephemeris_agree 0 (le_refl 0) (by norm_num)).1,
   (variants_ephemeris_agree 0 (le_refl 0) (by norm_num)).2 0 (by norm_num)⟩

/-- The phase written by one tick, read off the state update. -/
lemma animateTick_orbitPhase (P : VariantParams) (s : SceneState) (d : ℝ) :
    (animateTick P s d).orbitPhase =
      if s.ctrl.isPlaying then jsMod (s.orbitPhase + d * P.rate) 1
      else s.orbitPhase := rfl

/-- A tick never modifies the control snapshot. -/
lemma animateTick_ctrl (P : VariantParams) (s : SceneState) (d : ℝ) :
    (animateTick P s d).ctrl = s.ctrl := rfl

/-- A paused tick leaves the orbital phase unchanged. -/
lemma animateTick_paused (P : VariantParams) (s : SceneState) (d : ℝ)
    (h : s.ctrl.isPlaying = false) :
    (animateTick P s d).orbitPhase = s.orbitPhase := by
  rw [animateTick_orbitPhase, h]
  exact if_neg (by simp)

/-- Any number of ticks starting from a paused state leave the phase where it
was and keep the snapshot paused. -/
lemma ticks_paused (P : VariantParams) (ds : List ℝ) :
    ∀ s : SceneState, s.ctrl.isPlaying = false →
      (ds.foldl (animateTick P) s).orbitPhase = s.orbitPhase
      ∧ (ds.foldl (animateTick P) s).ctrl.isPlaying = false := by
  induction ds with
  | nil => exact fun s h => ⟨rfl, h⟩
  | cons d ds ih =>
      intro s h
      rw [List.foldl_cons]
      have hc : (animateTick P s d).ctrl.isPlaying = false := by
        rw [animateTick_ctrl]
        exact h
      obtain ⟨hp, hl⟩ := ih (animateTick P s d) hc
      exact ⟨by rw [hp, animateTick_paused P s d h], hl⟩

/-- C2 (amended): the autoplay advance keeps the phase in `[0,1)` whenever it
starts nonnegative, the season shortcuts of both variants store values of
`[0,1)`, but a slider scrub stores exactly the slider value, which ranges up
to and including 1 — so the stored phase is only guaranteed to lie in
`[0,1]`. -/
theorem phase_mutations_bounded :
    (∀ (P : VariantParams) (s : SceneState) (d : ℝ),
        0 ≤ P.rate → 0 ≤ d → 0 ≤ s.orbitPhase → s.orbitPhase ≤ 1 →
        0 ≤ (animateTick P s d).orbitPhase
        ∧ (animateTick P s d).orbitPhase ≤ 1
        ∧ (s.ctrl.isPlaying = true → (animateTick P s d).orbitPhase < 1))
    ∧ (∀ (s : SceneState) (i : Fin 4),
        0 ≤ (seasonShortcut i s).orbitPhase ∧ (seasonShortcut i s).orbitPhase < 1)
    ∧ (∀ s : SceneState, (marchEquinoxClick s).orbitPhase = 0)
    ∧ (∀ (s : SceneState) (n : ℕ), n ≤ 1000 →
        0 ≤ (sliderDrag (sliderValue n) s).orbitPhase
        ∧ (sliderDrag (sliderValue n) s).orbitPhase ≤ 1) := by
  refine ⟨?_, ?_, fun _ => rfl, ?_⟩
  · intro P s d hr hd h0 h1
    rw [animateTick_orbitPhase]
    cases hp : s.ctrl.isPlaying with
    | false =>
        rw [if_neg (show ¬((false : Bool) = true) by simp)]
        exact ⟨h0, h1, fun habs => Bool.noConfusion habs⟩
    | true =>
        rw [if_pos rfl]
        have hx : 0 ≤ s.orbitPhase + d * P.rate := add_nonneg h0 (mul_nonneg hd hr)
        rw [jsMod_one_nonneg _ hx]
        exact ⟨Int.fract_nonneg _, le_of_lt (Int.fract_lt_one _),
          fun _ => Int.fract_lt_one _⟩
  · intro s i
    have hv : (seasonShortcut i s).orbitPhase = ((i : ℕ) : ℝ) * 0.25 := rfl
    rw [hv]
    have hi : ((i : ℕ) : ℝ) ≤ 3 := by exact_mod_cast Nat.le_of_lt_succ i.isLt
    constructor
    · positivity
    · nlinarith
  · intro s n hn
    have hv : (sliderDrag (sliderValue n) s).orbitPhase = (n : ℝ) * 0.001 := rfl
    rw [hv]
    have hn1 : (n : ℝ) ≤ 1000 := by exact_mod_cast hn
    constructor
    · positivity
    · nlinarith

/-- Witness for C2 (amended) on the mount-time state. -/
theorem phase_mutations_bounded_witness :
    (0 ≤ (animateTick observatoryParams initialState 1).orbitPhase
      ∧ (animateTick observatoryParams initialState 1).orbitPhase ≤ 1
      ∧ (initialState.ctrl.isPlaying = true →
          (animateTick observatoryParams initialState 1).orbitPhase < 1))
    ∧ (0 ≤ (seasonShortcut 2 initialState).orbitPhase
        ∧ (seasonShortcut 2 initialState).orbitPhase < 1)
    ∧ (marchEquinoxClick initialState).orbitPhase = 0
    ∧ (0 ≤ (sliderDrag (sliderValue 500) initialState).orbitPhase
        ∧ (sliderDrag (sliderValue 500) initialState).orbitPhase ≤ 1) :=
  ⟨phase_mutations_bounded.1 observatoryParams initialState 1
      (by norm_num [observatoryParams]) (by norm_num)
      (by norm_num [initialState]) (by norm_num [initialState]),
   phase_mutations_bounded.2.1 initialState 2,
   phase_mutations_bounded.2.2.1 initialState,
   phase_mutations_bounded.2.2.2 initialState 500 (by norm_num)⟩

/-- C2 counterexample: dragging the slider to its maximum position stores the
phase value 1, which is not strictly below 1 — the stored phase can leave
`[0,1)`. -/
theorem slider_scrub_stores_one :
    sliderValue 1000 = 1
    ∧ (sliderDrag (sliderValue 1000) initialState).orbitPhase = 1
    ∧ ¬ (sliderDrag (sliderValue 1000) initialState).orbitPhase < 1 := by
  have h : sliderValue 1000 = 1 := by
    unfold sliderValue
    norm_num
  refine ⟨h, h, ?_⟩
  intro hlt
  rw [show (sliderDrag (sliderValue 1000) initialState).orbitPhase = 1 from h] at hlt
  exact lt_irrefl 1 hlt

/-- C5 (amended): in the floating-panel variant every season-marker click
pauses and stores `i × 0.25`; in the dashboard-card variant the March Equinox
button stores phase 0 but leaves the playing flag exactly as it was. -/
theorem season_shortcut_states (s : SceneState) (i : Fin 4) :
    (seasonShortcut i s).ctrl.isPlaying = false
    ∧ (seasonShortcut i s).orbitPhase = ((i : ℕ) : ℝ) * 0.25
    ∧ (seasonShortcut i s).uiPhase = ((i : ℕ) : ℝ) * 0.25
    ∧ (marchEquinoxClick s).orbitPhase = 0
    ∧ (marchEquinoxClick s).ctrl.isPlaying = s.ctrl.isPlaying :=
  ⟨rfl, rfl, rfl, rfl, rfl⟩

/-- C5 counterexample: clicking the March Equinox shortcut of the
dashboard-card variant while autoplay is on sets the phase to 0 but does NOT
force the playing flag to false. -/
theorem march_equinox_does_not_pause :
    (marchEquinoxClick initialState).orbitPhase = 0
    ∧ (marchEquinoxClick initialState).ctrl.isPlaying = true
    ∧ ¬ ((marchEquinoxClick initialState).ctrl.isPlaying = false) :=
  ⟨rfl, rfl, fun h => Bool.noConfusion h⟩

/-- C8: after a slider drag the playing flag is false, and any sequence of
subsequent animation ticks (with arbitrary frame deltas, in either variant)
leaves the stored orbital phase at the scrubbed value and the snapshot
paused. -/
theorem slider_drag_freezes_phase (P : VariantParams) (s : SceneState) (v : ℝ)
    (ds : List ℝ) :
    (sliderDrag v s).ctrl.isPlaying = false
    ∧ (ds.foldl (animateTick P) (sliderDrag v s)).orbitPhase = v
    ∧ (ds.foldl (animateTick P) (sliderDrag v s)).ctrl.isPlaying = false := by
  have h : (sliderDrag v s).ctrl.isPlaying = false := rfl
  obtain ⟨hp, hl⟩ := ticks_paused P ds (sliderDrag v s) h
  exact ⟨h, hp.trans rfl, hl⟩

lemma Vec3.length_nonneg (v : Vec3) : 0 ≤ v.length := Real.sqrt_nonneg _

lemma Vec3.length_scale (a : Vec3) (c : ℝ) : (a.scale c).length = |c| * a.length := by
  unfold Vec3.scale Vec3.length
  rw [show c * a.x * (c * a.x) + c * a.y * (c * a.y) + c * a.z * (c * a.z)
        = c ^ 2 * (a.x * a.x + a.y * a.y + a.z * a.z) by ring]
  rw [Real.sqrt_mul (sq_nonneg c), Real.sqrt_sq_eq_abs]

lemma Vec3.length_normalize (v : Vec3) (h : v.length ≠ 0) :
    v.normalize.length = 1 := by
  have hpos : 0 < v.length := lt_of_le_of_ne v.length_nonneg (Ne.symm h)
  unfold Vec3.normalize
  rw [Vec3.length_scale, if_neg h, abs_of_pos (by positivity)]
  field_simp

/-- The vector the tick feeds the shader, in components: the local sun
origin minus the earth world position. -/
lemma sub_sun_earthWorld (P : VariantParams) (p : ℝ) :
    Vec3.sub sunPosition (earthWorldPosition P p) =
      ⟨-(P.systemOffsetX + Real.sin (p * π * 2) * P.orbitRadius), 0,
        Real.cos (p * π * 2) * P.orbitRadius⟩ := by
  unfold Vec3.sub sunPosition earthWorldPosition systemOffsetVec Vec3.add orbitPosition
  simp only [Vec3.mk.injEq]
  refine ⟨by ring, by ring, by ring⟩

/-- Whenever the system x offset is smaller than the orbit radius, the vector
the tick normalizes is never zero. -/
lemma length_sub_sun_earthWorld_pos (P : VariantParams)
    (h : |P.systemOffsetX| < P.orbitRadius) (p : ℝ) :
    0 < (Vec3.sub sunPosition (earthWorldPosition P p)).length := by
  have hR : 0 < P.orbitRadius := lt_of_le_of_lt (abs_nonneg _) h
  have hs1 : Real.sin (p * π * 2) ≤ 1 := Real.sin_le_one _
  have hs2 : -1 ≤ Real.sin (p * π * 2) := Real.neg_one_le_sin _
  have hpyth := Real.sin_sq_add_cos_sq (p * π * 2)
  rw [sub_sun_earthWorld]
  unfold Vec3.length
  apply Real.sqrt_pos.mpr
  set ox := P.systemOffsetX
  set R := P.orbitRadius
  set sn := Real.sin (p * π * 2)
  set cs := Real.cos (p * π * 2)
  have hexp : -(ox + sn * R) * -(ox + sn * R) + (0 : ℝ) * 0 + cs * R * (cs * R)
      = ox ^ 2 + 2 * ox * R * sn + (sn ^ 2 + cs ^ 2) * R ^ 2 := by ring
  rw [hexp, hpyth, one_mul]
  rcases le_or_lt 0 ox with hsgn | hsgn
  · have hlt : ox < R := lt_of_le_of_lt (le_abs_self _) h
    have key : 0 ≤ 2 * ox * R * (1 + sn) :=
      mul_nonneg (mul_nonneg (by linarith) hR.le) (by linarith)
    have hsq : 0 < (R - ox) ^ 2 := pow_pos (by linarith) 2
    nlinarith [key, hsq]
  · have hlt : -ox < R := lt_of_le_of_lt (neg_le_abs ox) h
    have key : 0 ≤ 2 * (-ox) * R * (1 - sn) :=
      mul_nonneg (mul_nonneg (by linarith) hR.le) (by linarith)
    have hsq : 0 < (R + ox) ^ 2 := pow_pos (by linarith) 2
    nlinarith [key, hsq]

/-- The sun-direction uniform written by one tick of either variant is the
normalized difference of the local sun position and the earth world
position, exactly as the code computes it. -/
lemma animateTick_sunDirection (P : VariantParams) (s : SceneState) (d : ℝ) :
    (animateTick P s d).sunDirection =
      (Vec3.sub sunPosition
        (earthWorldPosition P (animateTick P s d).orbitPhase)).normalize := rfl

lemma animateTick_sunDirection_unit (P : VariantParams)
    (h : |P.systemOffsetX| < P.orbitRadius) (s : SceneState) (d : ℝ) :
    (animateTick P s d).sunDirection.length = 1 := by
  rw [animateTick_sunDirection]
  exact Vec3.length_normalize _ (ne_of_gt (length_sub_sun_earthWorld_pos P h _))

lemma Vec3.length_z_axis (c : ℝ) : Vec3.length ⟨0, 0, c⟩ = |c| := by
  unfold Vec3.length
  rw [show (0 : ℝ) * 0 + 0 * 0 + c * c = c ^ 2 by ring, Real.sqrt_sq_eq_abs]

lemma Vec3.normalize_z_axis (c : ℝ) (hc : c ≠ 0) :
    Vec3.normalize ⟨0, 0, c⟩ = ⟨0, 0, c / |c|⟩ := by
  unfold Vec3.normalize Vec3.scale
  rw [Vec3.length_z_axis, if_neg (abs_ne_zero.mpr hc)]
  simp only [Vec3.mk.injEq]
  refine ⟨by ring, by ring, ?_⟩
  rw [one_div, inv_mul_eq_div]

/-- The earth world position of the dashboard-card variant at phase 0. -/
lemma earthWorld_card_zero : earthWorldPosition cardParams 0 = ⟨-3.5, 0, -16⟩ := by
  unfold earthWorldPosition systemOffsetVec Vec3.add orbitPosition cardParams
  rw [show (0 : ℝ) * π * 2 = 0 by ring, Real.sin_zero, Real.cos_zero]
  simp only [Vec3.mk.injEq]
  norm_num

/-- At phase 0 the dashboard-card tick stores a vector with a strictly
positive x component, while the true planet-to-sun world direction there is
`(0,0,1)`: the `system.position.x = -3.5` offset does not cancel because the
code subtracts a world position from the local sun origin. -/
lemma card_sunDir_deviates :
    (animateTick cardParams (sliderDrag 0 initialState) 0).sunDirection
      ≠ planetToSunWorldDir cardParams
          (animateTick cardParams (sliderDrag 0 initialState) 0).orbitPhase := by
  have hphase :
      (animateTick cardParams (sliderDrag 0 initialState) 0).orbitPhase = 0 :=
    animateTick_paused _ _ _ rfl
  have hsub : Vec3.sub sunPosition ⟨-3.5, 0, -16⟩ = ⟨(3.5 : ℝ), 0, 16⟩ := by
    unfold Vec3.sub sunPosition
    simp only [Vec3.mk.injEq]
    norm_num
  have hsunW : sunWorldPosition cardParams = ⟨-3.5, 0, 0⟩ := rfl
  have hsubT : Vec3.sub ⟨-3.5, 0, 0⟩ ⟨-3.5, 0, -16⟩ = ⟨0, 0, (16 : ℝ)⟩ := by
    unfold Vec3.sub
    simp only [Vec3.mk.injEq]
    norm_num
  have hrhs : planetToSunWorldDir cardParams 0 = ⟨0, 0, 1⟩ := by
    unfold planetToSunWorldDir
    rw [hsunW, earthWorld_card_zero, hsubT, Vec3.normalize_z_axis 16 (by norm_num)]
    simp only [Vec3.mk.injEq]
    norm_num
  have hlhs :
      (animateTick cardParams (sliderDrag 0 initialState) 0).sunDirection
        = Vec3.normalize ⟨(3.5 : ℝ), 0, 16⟩ := by
    rw [animateTick_sunDirection, hphase, earthWorld_card_zero, hsub]
  have hlen : Vec3.length ⟨(3.5 : ℝ), 0, 16⟩ = Real.sqrt 268.25 := by
    unfold Vec3.length
    norm_num
  have hlpos : 0 < Vec3.length ⟨(3.5 : ℝ), 0, 16⟩ := by
    rw [hlen]
    exact Real.sqrt_pos.mpr (by norm_num)
  have hxval : (Vec3.normalize ⟨(3.5 : ℝ), 0, 16⟩).x
      = (1 / Vec3.length ⟨(3.5 : ℝ), 0, 16⟩) * 3.5 := by
    unfold Vec3.normalize Vec3.scale
    rw [if_neg (ne_of_gt hlpos)]
  intro heq
  rw [hlhs, hphase, hrhs] at heq
  have hx0 : (Vec3.normalize ⟨(3.5 : ℝ), 0, 16⟩).x = 0 := by
    rw [heq]
  rw [hxval] at hx0
  have hxpos : 0 < (1 / Vec3.length ⟨(3.5 : ℝ), 0, 16⟩) * 3.5 :=
    mul_pos (one_div_pos.mpr hlpos) (by norm_num)
  linarith

/-- C4 (amended): on every tick, in both variants, the loop assigns to the
sunDirection uniform exactly the unit normalization of the difference
between the sun position it reads (the local origin of the `system` group)
and the earth world position, and that vector always has unit length.  In
the floating-panel variant the `system` group sits at the origin, so the
assigned vector is the true planet-to-sun (Earth toward Sun) world
direction; in the dashboard-card variant the group is offset by
`x = -3.5` while `sun.position` stays local, so the assigned vector
deviates from the true planet-to-sun world direction (shown at phase 0). -/
theorem sun_uniform_unit_direction (s : SceneState) (d : ℝ) :
    ((animateTick observatoryParams s d).sunDirection =
        (Vec3.sub sunPosition
          (earthWorldPosition observatoryParams
            (animateTick observatoryParams s d).orbitPhase)).normalize
      ∧ (animateTick observatoryParams s d).sunDirection.length = 1
      ∧ (animateTick observatoryParams s d).sunDirection =
          planetToSunWorldDir observatoryParams
            (animateTick observatoryParams s d).orbitPhase)
    ∧ ((animateTick cardParams s d).sunDirection =
        (Vec3.sub sunPosition
          (earthWorldPosition cardParams
            (animateTick cardParams s d).orbitPhase)).normalize
      ∧ (animateTick cardParams s d).sunDirection.length = 1)
    ∧ (animateTick cardParams (sliderDrag 0 initialState) 0).sunDirection
        ≠ planetToSunWorldDir cardParams
            (animateTick cardParams (sliderDrag 0 initialState) 0).orbitPhase :=
  ⟨⟨animateTick_sunDirection _ s d,
    animateTick_sunDirection_unit observatoryParams (by norm_num [observatoryParams]) s d,
    rfl⟩,
   ⟨animateTick_sunDirection _ s d,
    animateTick_sunDirection_unit cardParams (by norm_num [cardParams, abs_lt]) s d⟩,
   card_sunDir_deviates⟩

/-- C4 counterexample: at phase 0 (after scrubbing the slider there) the tick
assigns the uniform `(0,0,1)`, while the unit sun-to-planet direction of the
claim is `(0,0,-1)` — the code stores the opposite (planet-to-sun) vector. -/
theorem sun_uniform_is_not_sun_to_planet :
    (animateTick observatoryParams (sliderDrag 0 initialState) 0).sunDirection
      ≠ specSunToPlanetDir
          (animateTick observatoryParams (sliderDrag 0 initialState) 0).orbitPhase
          observatoryParams.orbitRadius := by
  have hphase :
      (animateTick observatoryParams (sliderDrag 0 initialState) 0).orbitPhase = 0 :=
    animateTick_paused _ _ _ rfl
  have horb : orbitPosition 0 observatoryParams.orbitRadius = ⟨0, 0, -14⟩ := by
    unfold orbitPosition observatoryParams
    rw [show (0 : ℝ) * π * 2 = 0 by ring, Real.sin_zero, Real.cos_zero]
    simp only [Vec3.mk.injEq]
    norm_num
  have hew : earthWorldPosition observatoryParams 0 = ⟨0, 0, -14⟩ := by
    unfold earthWorldPosition systemOffsetVec Vec3.add orbitPosition observatoryParams
    rw [show (0 : ℝ) * π * 2 = 0 by ring, Real.sin_zero, Real.cos_zero]
    simp only [Vec3.mk.injEq]
    norm_num
  have hsub1 : Vec3.sub sunPosition ⟨0, 0, -14⟩ = ⟨0, 0, (14 : ℝ)⟩ := by
    unfold Vec3.sub sunPosition
    simp only [Vec3.mk.injEq]
    norm_num
  have hsub2 : Vec3.sub ⟨0, 0, -14⟩ sunPosition = ⟨0, 0, (-14 : ℝ)⟩ := by
    unfold Vec3.sub sunPosition
    simp only [Vec3.mk.injEq]
    norm_num
  have hlhs :
      (animateTick observatoryParams (sliderDrag 0 initialState) 0).sunDirection
        = ⟨0, 0, 1⟩ := by
    rw [animateTick_sunDirection, hphase, hew, hsub1,
        Vec3.normalize_z_axis 14 (by norm_num)]
    simp only [Vec3.mk.injEq]
    norm_num
  have hrhs :
      specSunToPlanetDir
          (animateTick observatoryParams (sliderDrag 0 initialState) 0).orbitPhase
          observatoryParams.orbitRadius = ⟨0, 0, -1⟩ := by
    unfold specSunToPlanetDir
    rw [hphase, horb, hsub2, Vec3.normalize_z_axis (-14) (by norm_num)]
    simp only [Vec3.mk.injEq]
    norm_num
  rw [hlhs, hrhs]
  intro h
  have hz : (1 : ℝ) = -1 := congrArg Vec3.z h
  norm_num at hz

/-- C7 (amended): `subsolarLatitude` and `getSeasonIndex` return the same
output for the same phase in any two environments, and `dateLabel` returns
the same output in any two environments sharing the timezone offset. -/
theorem ephemeris_env_determinism (e1 e2 : JsEnv) (p : ℝ) :
    subsolarLatitudeCall e1 p = subsolarLatitudeCall e2 p
    ∧ getSeasonIndexCall e1 p = getSeasonIndexCall e2 p
    ∧ dateLabel ⟨e1.tzOffsetMin, e1.now⟩ p = dateLabel ⟨e1.tzOffsetMin, e2.now⟩ p :=
  ⟨rfl, rfl, rfl⟩

/-- C7 counterexample: at phase 0, `dateLabel` renders March 20 in a UTC
environment but March 19 in an environment five hours west of UTC (timezone
offset 300 minutes): the output depends on the hidden timezone state. -/
theorem dateLabel_depends_on_timezone :
    dateLabel ⟨0, 0⟩ 0 = ⟨3, 20⟩
    ∧ dateLabel ⟨300, 0⟩ 0 = ⟨3, 19⟩
    ∧ dateLabel ⟨0, 0⟩ 0 ≠ dateLabel ⟨300, 0⟩ 0 := by
  have hms : (START_EPOCH : ℝ) + 0 * (YEAR_MS : ℝ) = ((START_EPOCH : ℤ) : ℝ) := by
    ring
  have h1 : dateLabel ⟨0, 0⟩ 0 = ⟨3, 20⟩ := by
    unfold dateLabel
    rw [hms, jsTrunc_intCast]
    decide
  have h2 : dateLabel ⟨300, 0⟩ 0 = ⟨3, 19⟩ := by
    unfold dateLabel
    rw [hms, jsTrunc_intCast]
    decide
  refine ⟨h1, h2, ?_⟩
  rw [h1, h2]
  intro h
  have := congrArg DateParts.day h
  exact absurd this (by decide)

end CelestialObservatory
